import Mathlib

/-!
Shallow embedding of the serialport core: the in-memory mock binding
(`MockBindings` in `lib/bindings-darwin.js`) and the `SerialPort` port
controller from the same file.  JavaScript objects used as maps are
modelled as association lists; JavaScript `process.nextTick` deferral is
modelled by tagging every callback invocation with a timing
(`sync`/`deferred`) and, for the composed controller+mock system, by an
explicit FIFO task queue.  Mutable `Buffer` objects are modelled by a
small heap of buffer ids so that the defensive-copy behaviour of
`write` is observable.
-/

namespace SerialCore

/-- Lookup in an association list (first binding wins), the model of
reading `obj[k]` on a JavaScript object used as a map. -/
def alookup {α β : Type} [DecidableEq α] (k : α) : List (α × β) → Option β
  | [] => none
  | (a, b) :: t => if a = k then some b else alookup k t

/-- `obj[k] = v` on a JavaScript object: replace the binding if present,
append it otherwise. -/
def aset {α β : Type} [DecidableEq α] (k : α) (v : β) : List (α × β) → List (α × β)
  | [] => [(k, v)]
  | (a, b) :: t => if a = k then (k, v) :: t else (a, b) :: aset k v t

/-- `delete obj[k]` on a JavaScript object. -/
def aremove {α β : Type} [DecidableEq α] (k : α) : List (α × β) → List (α × β)
  | [] => []
  | (a, b) :: t => if a = k then aremove k t else (a, b) :: aremove k t

theorem alookup_aset_self {α β : Type} [DecidableEq α] (k : α) (v : β)
    (l : List (α × β)) : alookup k (aset k v l) = some v := by
  induction l with
  | nil => simp [aset, alookup]
  | cons hd t ih =>
    obtain ⟨a, b⟩ := hd
    by_cases hak : a = k
    · simp [aset, hak, alookup]
    · simp [aset, hak, alookup, ih]

theorem alookup_aset_ne {α β : Type} [DecidableEq α] {k k' : α} (v : β)
    (l : List (α × β)) (h : k ≠ k') : alookup k (aset k' v l) = alookup k l := by
  have hne : ¬ (k' = k) := fun he => h he.symm
  induction l with
  | nil => simp [aset, alookup, hne]
  | cons hd t ih =>
    obtain ⟨a, b⟩ := hd
    by_cases hak : a = k'
    · subst hak
      simp [aset, alookup, hne]
    · by_cases hk : a = k
      · subst hk
        simp [aset, hak, alookup]
      · simp [aset, hak, alookup, hk, ih]

theorem alookup_aremove_ne {α β : Type} [DecidableEq α] {k k' : α}
    (l : List (α × β)) (h : k ≠ k') : alookup k (aremove k' l) = alookup k l := by
  have hne : ¬ (k' = k) := fun he => h he.symm
  induction l with
  | nil => simp [aremove]
  | cons hd t ih =>
    obtain ⟨a, b⟩ := hd
    by_cases hak : a = k'
    · subst hak
      simp [aremove, alookup, hne, ih]
    · by_cases hk : a = k
      · subst hk
        simp [aremove, hak, alookup]
      · simp [aremove, hak, alookup, hk, ih]

/-! ## Mock binding (`MockBindings`) -/

/-- The options object handed to the binding; only the fields the mock
binding ever reads are modelled: `lock` (read by `open`'s lock check)
and `baudRate` (read by `update`'s truthiness check). -/
structure OpenOpt where
  lock : Bool
  baudRate : Option Nat
  deriving Repr, DecidableEq

/-- Errors the mock binding can pass to a callback. `missingPort`
models `MissingPortError` (with the path when one was supplied to the
constructor), `portLocked` the `'port is locked cannot open'` error and
`fdClosed` the `fd + ' fd is already closed'` error of `close`. -/
inductive MockErr where
  | missingPort (path : Option String)
  | portLocked
  | fdClosed (fd : Nat)
  deriving Repr, DecidableEq

/-- Synchronous JavaScript exceptions the embedded code can raise:
`typeError` for a property access on `undefined`, `missingBaudRate`
for `update`'s `throw new Error('Missing baudRate')`. -/
inductive JsThrow where
  | typeError
  | missingBaudRate
  deriving Repr, DecidableEq

/-- Whether a callback was invoked synchronously (directly, inside the
operation's own call stack) or deferred through
`callLater`/`process.nextTick`. -/
inductive CbTiming where
  | sync
  | deferred
  deriving Repr, DecidableEq

/-- The argument shape of one callback invocation by the mock binding. -/
inductive CbArg where
  | err (e : MockErr)
  | okNone
  | okFd (fd : Nat)
  | okBytes (n : Nat)
  | okList (names : List String)
  deriving Repr, DecidableEq

/-- A heap of mutable `Buffer` objects: each allocated buffer id maps to
its current byte contents.  `next` is the next fresh id. -/
structure BufHeap where
  bufs : List (Nat × List Nat)
  next : Nat
  deriving Repr, DecidableEq

/-- Mutating the contents of an already-allocated buffer in place
(the caller overwriting its own `Buffer`). -/
def writeBuf (h : BufHeap) (id : Nat) (c : List Nat) : BufHeap :=
  { h with bufs := aset id c h.bufs }

/-- One registry entry of the mock binding (`this.ports[path]`): the
accumulated inbound `data`, the `lastWrite` buffer (a buffer id, `none`
for the initial `null`), the options recorded by the most recent
successful open (`openOpt`, absent until the first open), and the
entry's list of open fds.  The static `info` metadata record and the
`poller` field are not read by any modelled operation and are omitted. -/
structure PortEntry where
  data : List Nat
  lastWrite : Option Nat
  openOpt : Option OpenOpt
  fds : List Nat
  deriving Repr, DecidableEq

/-- The mock binding's state: the fd counter `nextFd`, the global
`fds` map and the `ports` registry.  In the source `this.fds[fd]`
stores a reference to the very port object held in `this.ports[path]`;
since a path's entry object is only ever replaced by `createPort`, the
reference is represented here by the entry's path key. -/
structure MockState where
  nextFd : Nat
  fds : List (Nat × String)
  ports : List (String × PortEntry)
  deriving Repr, DecidableEq

def emptyMock : MockState := { nextFd := 0, fds := [], ports := [] }

/-- A freshly created registry entry (`createPort`). -/
def newPortEntry : PortEntry :=
  { data := [], lastWrite := none, openOpt := none, fds := [] }

/-- `MockBindings.prototype.createPort`.  The source's
`delete this.fds[this.ports[path].fd]` reads a `.fd` field that no
entry ever has, so the delete targets key `undefined` and is a no-op
on every reachable state; only the registry assignment remains. -/
def createPort (s : MockState) (path : String) : MockState :=
  { s with ports := aset path newPortEntry s.ports }

/-- `getPortByFD`: the entry referenced by the global fds map. -/
def getPortByFD (s : MockState) (fd : Nat) : Option PortEntry :=
  (alookup fd s.fds).bind (fun p => alookup p s.ports)

/-- The successful tail of `MockBindings.prototype.open`: record the
supplied options as the entry's open options, allocate `nextFd`, push
it onto the entry's fd list and into the global fds map, and defer the
success callback with the new fd. -/
def openGo (s : MockState) (path : String) (port : PortEntry) (opt : OpenOpt) :
    MockState × List (CbTiming × CbArg) :=
  let fd := s.nextFd
  let port' := { port with openOpt := some opt, fds := port.fds ++ [fd] }
  ({ nextFd := fd + 1,
     fds := aset fd path s.fds,
     ports := aset path port' s.ports },
   [(.deferred, .okFd fd)])

/-- `MockBindings.prototype.open`.  Note that both failure paths call
`cb` directly (synchronously) while the success path goes through
`callLater`; the lock check reads `port.openOpt.lock`, the lock option
recorded by the previous open (a `TypeError` if `openOpt` is still
`undefined`, which no reachable state with a nonempty fd list has). -/
def mockOpen (s : MockState) (path : String) (opt : OpenOpt) :
    Except JsThrow (MockState × List (CbTiming × CbArg)) :=
  match alookup path s.ports with
  | none => .ok (s, [(.sync, .err (.missingPort (some path)))])
  | some port =>
    if port.fds.length > 0 then
      match port.openOpt with
      | none => .error .typeError
      | some o =>
        if o.lock then .ok (s, [(.sync, .err .portLocked)])
        else .ok (openGo s path port opt)
    else .ok (openGo s path port opt)

/-- `MockBindings.prototype.close`: remove the fd from the global map
and from the entry's fd list, then defer the callback. -/
def mockClose (s : MockState) (fd : Nat) : MockState × List (CbTiming × CbArg) :=
  match alookup fd s.fds with
  | none => (s, [(.deferred, .err (.fdClosed fd))])
  | some path =>
    match alookup path s.ports with
    | none => (s, [(.deferred, .err (.fdClosed fd))])
    | some port =>
      let port' := { port with fds := port.fds.filter (fun i => i ≠ fd) }
      ({ s with fds := aremove fd s.fds, ports := aset path port' s.ports },
       [(.deferred, .okNone)])

/-- JavaScript truthiness of the `baudRate` field: `undefined` and `0`
are falsy. -/
def truthyBaud : Option Nat → Bool
  | none => false
  | some n => n ≠ 0

/-- `MockBindings.prototype.update`: throws synchronously when
`opt.baudRate` is falsy, before the fd is even looked at; otherwise
validates the fd and defers the callback. -/
def mockUpdate (s : MockState) (fd : Nat) (opt : OpenOpt) :
    Except JsThrow (MockState × List (CbTiming × CbArg)) :=
  if truthyBaud opt.baudRate then
    if (getPortByFD s fd).isNone then
      .ok (s, [(.deferred, .err (.missingPort none))])
    else
      .ok (s, [(.deferred, .okNone)])
  else
    .error .missingBaudRate

/-- `MockBindings.prototype.write`: on a valid fd, allocate a fresh
buffer with a copy of the caller's bytes (`new Buffer(buffer)`), store
it as the entry's `lastWrite`, and defer the callback with the number
of bytes of the caller's buffer. -/
def mockWrite (s : MockState) (h : BufHeap) (fd : Nat) (buf : Nat) :
    MockState × BufHeap × List (CbTiming × CbArg) :=
  match alookup fd s.fds with
  | none => (s, h, [(.deferred, .err (.missingPort none))])
  | some path =>
    match alookup path s.ports with
    | none => (s, h, [(.deferred, .err (.missingPort none))])
    | some port =>
      let content := (alookup buf h.bufs).getD []
      let h' : BufHeap := { bufs := aset h.next content h.bufs, next := h.next + 1 }
      let port' := { port with lastWrite := some h.next }
      ({ s with ports := aset path port' s.ports }, h',
       [(.deferred, .okBytes content.length)])

/-- `MockBindings.prototype.flush`. -/
def mockFlush (s : MockState) (fd : Nat) : MockState × List (CbTiming × CbArg) :=
  if (getPortByFD s fd).isNone then
    (s, [(.deferred, .err (.missingPort none))])
  else
    (s, [(.deferred, .okNone)])

/-- The flag record accepted by the binding's `set`; the mock never
reads it. -/
structure SetFlags where
  brk : Bool
  cts : Bool
  dtr : Bool
  dts : Bool
  rts : Bool
  deriving Repr, DecidableEq

/-- `MockBindings.prototype.set`. -/
def mockSet (s : MockState) (fd : Nat) (_flags : SetFlags) :
    MockState × List (CbTiming × CbArg) :=
  if (getPortByFD s fd).isNone then
    (s, [(.deferred, .err (.missingPort none))])
  else
    (s, [(.deferred, .okNone)])

/-- `MockBindings.prototype.drain`. -/
def mockDrain (s : MockState) (fd : Nat) : MockState × List (CbTiming × CbArg) :=
  if (getPortByFD s fd).isNone then
    (s, [(.deferred, .err (.missingPort none))])
  else
    (s, [(.deferred, .okNone)])

/-- `MockBindings.prototype.list`: defer the callback with the info of
every registered port (represented by the registry keys). -/
def mockList (s : MockState) : MockState × List (CbTiming × CbArg) :=
  (s, [(.deferred, .okList (s.ports.map Prod.fst))])

/-! ## Port controller (`SerialPort`, composed with the mock binding) -/

/-- The controller's validated settings (`this.options`); only the
fields the modelled operations read are kept: `baudRate` (numeric — the
constructor rejects non-numbers) and `lock`.  The remaining enum and
flow-control fields are validated at construction and never consulted
by `open`/`close`/`update`/`_read`/`_disconnected`. -/
structure Settings where
  baudRate : Nat
  lock : Bool
  deriving Repr, DecidableEq

/-- `defaultSettings.baudRate = 9600`, `defaultSettings.lock = true`. -/
def defaultSettings : Settings := { baudRate := 9600, lock := true }

/-- The projection of the controller's options object that the mock
binding reads when it is passed as the `opt` argument. -/
def Settings.toOpenOpt (st : Settings) : OpenOpt :=
  { lock := st.lock, baudRate := some st.baudRate }

/-- Errors the controller delivers through its callback-or-event
convention. -/
inductive SPErr where
  | alreadyOpen
  | portOpening
  | notOpen
  | binding (e : MockErr)
  deriving Repr, DecidableEq

/-- Events emitted on the controller. -/
inductive SPEvent where
  | openEvt
  | closeEvt
  | errorEvt (e : SPErr)
  | disconnectEvt (e : MockErr)
  deriving Repr, DecidableEq

/-- One invocation of a user-supplied operation callback. -/
inductive CbOutcome where
  | success
  | failure (e : SPErr)
  deriving Repr, DecidableEq

/-- One call from the controller into the binding layer. -/
inductive BindingCall where
  | bindOpen (path : String) (opt : OpenOpt)
  | bindClose (fd : Nat)
  | bindUpdate (fd : Nat) (opt : OpenOpt)
  | bindRequestBytes (n : Nat)
  deriving Repr, DecidableEq

/-- A deferred completion waiting on the `process.nextTick` queue: the
controller closure registered with the binding, together with whether
the user supplied a callback and the argument the binding passed. -/
inductive STask where
  | openCb (hasCb : Bool) (arg : CbArg)
  | closeCb (hasCb : Bool) (arg : CbArg)
  | updateCb (hasCb : Bool) (arg : CbArg)
  deriving Repr, DecidableEq

/-- The controller's own fields: `fd` (null until open), the `opening`
guard, the stored `options`, the read-only `path`, the `portReader`
(never assigned — its creation in `open` is commented out in the
source) and the byte counts of `_read` retries registered via
`once('open')`. -/
structure SPState where
  fd : Option Nat
  opening : Bool
  options : Settings
  path : String
  portReader : Option Unit
  onceOpen : List Nat
  deriving Repr, DecidableEq

/-- `isOpen` getter: `this.fd !== null`. -/
def isOpen (sp : SPState) : Bool := sp.fd.isSome

/-- The composed system: one controller, the mock binding state, the
FIFO `process.nextTick` queue, and observation logs for emitted events,
user-callback invocations and calls into the binding layer. -/
structure Sys where
  sp : SPState
  mock : MockState
  tasks : List STask
  events : List SPEvent
  cbLog : List CbOutcome
  calls : List BindingCall
  deriving Repr, DecidableEq

/-- A freshly constructed controller (autoOpen's scheduled open not yet
run) over a given mock state. -/
def mkSys (path : String) (opts : Settings) (m : MockState) : Sys :=
  { sp := { fd := none, opening := false, options := opts, path := path,
            portReader := none, onceOpen := [] },
    mock := m, tasks := [], events := [], cbLog := [], calls := [] }

/-- `SerialPort.prototype._error`: deliver to the callback when one was
supplied, otherwise emit an `error` event. -/
def sysError (sys : Sys) (hasCb : Bool) (e : SPErr) : Sys :=
  if hasCb then { sys with cbLog := sys.cbLog ++ [.failure e] }
  else { sys with events := sys.events ++ [.errorEvt e] }

/-- The completion closure `open` hands to `bindings.open`: on error
route through `_error`; on success store the fd, clear the opening
guard, emit `open` and invoke the callback. -/
def spOpenCb (sys : Sys) (hasCb : Bool) (arg : CbArg) : Sys :=
  match arg with
  | .err e => sysError sys hasCb (.binding e)
  | .okFd fd =>
    let sys := { sys with
      sp := { sys.sp with fd := some fd, opening := false },
      events := sys.events ++ [.openEvt] }
    if hasCb then { sys with cbLog := sys.cbLog ++ [.success] } else sys
  | _ => sys

/-- The completion closure `close` hands to `bindings.close`. -/
def spCloseCb (sys : Sys) (hasCb : Bool) (arg : CbArg) : Sys :=
  match arg with
  | .err e => sysError sys hasCb (.binding e)
  | _ =>
    let sys := { sys with events := sys.events ++ [.closeEvt] }
    if hasCb then { sys with cbLog := sys.cbLog ++ [.success] } else sys

/-- The completion closure `update` hands to `bindings.update`. -/
def spUpdateCb (sys : Sys) (hasCb : Bool) (arg : CbArg) : Sys :=
  match arg with
  | .err e => sysError sys hasCb (.binding e)
  | _ =>
    if hasCb then { sys with cbLog := sys.cbLog ++ [.success] } else sys

/-- Route one binding callback invocation: a synchronous one runs the
controller closure inside the same call, a deferred one is appended to
the `process.nextTick` queue as a task. -/
def deliver (mkTask : Bool → CbArg → STask) (handler : Sys → Bool → CbArg → Sys)
    (hasCb : Bool) (sys : Sys) (cbs : List (CbTiming × CbArg)) : Sys :=
  cbs.foldl (fun sys tc =>
    match tc with
    | (.sync, a) => handler sys hasCb a
    | (.deferred, a) => { sys with tasks := sys.tasks ++ [mkTask hasCb a] }) sys

/-- `SerialPort.prototype.open` against the mock binding.  Note the
mock's failure callbacks are synchronous, so in those cases the
controller's completion closure runs before `open` returns. -/
def spOpen (sys : Sys) (hasCb : Bool) : Except JsThrow Sys :=
  if isOpen sys.sp then .ok (sysError sys hasCb .alreadyOpen)
  else if sys.sp.opening then .ok (sysError sys hasCb .portOpening)
  else
    let sys := { sys with sp := { sys.sp with opening := true } }
    let opt := sys.sp.options.toOpenOpt
    let sys := { sys with calls := sys.calls ++ [BindingCall.bindOpen sys.sp.path opt] }
    match mockOpen sys.mock sys.sp.path opt with
    | .error t => .error t
    | .ok (m, cbs) => .ok (deliver STask.openCb spOpenCb hasCb { sys with mock := m } cbs)

/-- `SerialPort.prototype.close` against the mock binding: the stored
fd is cleared before `bindings.close` is invoked. -/
def spClose (sys : Sys) (hasCb : Bool) : Sys :=
  match sys.sp.fd with
  | none => sysError sys hasCb .notOpen
  | some fd =>
    let sys := { sys with sp := { sys.sp with fd := none } }
    let sys := { sys with calls := sys.calls ++ [BindingCall.bindClose fd] }
    let (m, cbs) := mockClose sys.mock fd
    deliver STask.closeCb spCloseCb hasCb { sys with mock := m } cbs

/-- `SerialPort.prototype.update` against the mock binding: merge the
caller's options over `defaultSettings` (`assign({}, defaultSettings,
options)` — only `baudRate` of the merge is read), overwrite the stored
`options.baudRate`, then pass `this.options` to `bindings.update`. -/
def spUpdate (sys : Sys) (optBaud : Option Nat) (hasCb : Bool) : Except JsThrow Sys :=
  match sys.sp.fd with
  | none => .ok (sysError sys hasCb .notOpen)
  | some fd =>
    let merged := optBaud.getD defaultSettings.baudRate
    let sys := { sys with
      sp := { sys.sp with options := { sys.sp.options with baudRate := merged } } }
    let opt := sys.sp.options.toOpenOpt
    let sys := { sys with calls := sys.calls ++ [BindingCall.bindUpdate fd opt] }
    match mockUpdate sys.mock fd opt with
    | .error t => .error t
    | .ok (m, cbs) => .ok (deliver STask.updateCb spUpdateCb hasCb { sys with mock := m } cbs)

/-- `SerialPort.prototype._disconnected`: nothing when no fd is held;
otherwise emit `disconnect` with the error and call `close()` (with no
callback). -/
def spDisconnected (sys : Sys) (e : MockErr) : Sys :=
  match sys.sp.fd with
  | none => sys
  | some _ =>
    spClose { sys with events := sys.events ++ [.disconnectEvt e] } false

/-- `SerialPort.prototype._read`: when the port is not open it
registers a `once('open')` retry for the requested byte count but —
lacking a `return` — still falls through to
`this.portReader.requestBytes(bytes)`.  The second component is the
synchronous exception this raises (a `TypeError` whenever `portReader`
is unassigned). -/
def spRead (sys : Sys) (bytes : Nat) : Sys × Option JsThrow :=
  let sys :=
    if isOpen sys.sp then sys
    else { sys with sp := { sys.sp with onceOpen := sys.sp.onceOpen ++ [bytes] } }
  match sys.sp.portReader with
  | none => (sys, some .typeError)
  | some _ => ({ sys with calls := sys.calls ++ [BindingCall.bindRequestBytes bytes] }, none)

/-- Run one queued `process.nextTick` task. -/
def runTask (sys : Sys) (t : STask) : Sys :=
  match t with
  | .openCb cb a => spOpenCb sys cb a
  | .closeCb cb a => spCloseCb sys cb a
  | .updateCb cb a => spUpdateCb sys cb a

/-- Drain the task queue (fuel-bounded; the modelled tasks never
enqueue further tasks). -/
def runQueue : Sys → Nat → Sys
  | sys, 0 => sys
  | sys, n + 1 =>
    match sys.tasks with
    | [] => sys
    | t :: rest => runQueue (runTask { sys with tasks := rest } t) n

/-- Unwrap an operation result that did not throw, keeping `d` when it
did. -/
def getOkD (d : Sys) : Except JsThrow Sys → Sys
  | .ok s => s
  | .error _ => d

/-! ## Concrete scenarios (the test fixture path and option records) -/

def devPath : String := "/dev/exists"

/-- A mock registry holding the single created port `/dev/exists`. -/
def mock1 : MockState := createPort emptyMock devPath

/-- Default-shaped open options (`lock: true`). -/
def optLockT : OpenOpt := { lock := true, baudRate := some 9600 }

/-- Open options with `lock: false`. -/
def optLockF : OpenOpt := { lock := false, baudRate := some 9600 }

/-- The mock state component of an operation result that did not throw. -/
def stateOfE (d : MockState) : Except JsThrow (MockState × List (CbTiming × CbArg)) → MockState
  | .ok (m, _) => m
  | .error _ => d

/-- The callback invocations of an operation result (none when the
operation threw: the exception preempts every callback). -/
def cbsOfE : Except JsThrow (MockState × List (CbTiming × CbArg)) → List (CbTiming × CbArg)
  | .ok (_, cbs) => cbs
  | .error _ => []

def isDeferred : CbTiming → Bool
  | .deferred => true
  | .sync => false

def isErrArg : CbArg → Bool
  | .err _ => true
  | _ => false

/-- Every recorded callback invocation was deferred. -/
def allDeferred (l : List (CbTiming × CbArg)) : Bool :=
  l.all (fun tc => isDeferred tc.1)

/-- The mock after `/dev/exists` was opened once with the default
`lock: true` options. -/
def mockOpened1 : MockState := stateOfE emptyMock (mockOpen mock1 devPath optLockT)

/-- The mock after `/dev/exists` was opened once with `lock: false`. -/
def mockOpenedF : MockState := stateOfE emptyMock (mockOpen mock1 devPath optLockF)

/-- `mockOpenedF` after a second successful open (fd 1). -/
def mockOpenedFT : MockState := stateOfE emptyMock (mockOpen mockOpenedF devPath optLockT)

/-- A controller for a path the mock does not know. -/
def noPortSys : Sys := mkSys "COMBAD" defaultSettings emptyMock

/-- `noPortSys` after one (failed) `open()` call with no callback. -/
def sysAfterFailedOpen : Sys := getOkD noPortSys (spOpen noPortSys false)

/-- A freshly constructed controller over `/dev/exists`. -/
def okPortSys : Sys := mkSys devPath defaultSettings mock1

/-- `okPortSys` after `open()` (with a callback) succeeded and its
deferred completion ran: fd 0 is held. -/
def sysOpened : Sys := runQueue (getOkD okPortSys (spOpen okPortSys true)) 4

/-! ## C1 -/

/-- C1: mock `open` — an unregistered path fails the callback with the
missing-port error; a path whose entry has at least one open fd and
whose recorded open options have `lock` true fails with the port-locked
error; otherwise open succeeds with the freshly allocated fd
`s.nextFd` (the counter then moves to `s.nextFd + 1`, so successive
handles are monotonically increasing), records it in the global fds map
and in the entry's fd list, and stores the supplied options as the
entry's current open options. -/
theorem mock_open_contract (s : MockState) (path : String) (opt : OpenOpt) :
    (alookup path s.ports = none →
      mockOpen s path opt = .ok (s, [(.sync, .err (.missingPort (some path)))])) ∧
    (∀ port o, alookup path s.ports = some port → port.fds ≠ [] →
      port.openOpt = some o → o.lock = true →
      mockOpen s path opt = .ok (s, [(.sync, .err .portLocked)])) ∧
    (∀ port, alookup path s.ports = some port →
      (port.fds = [] ∨ ∃ o, port.openOpt = some o ∧ o.lock = false) →
      mockOpen s path opt = .ok
        ({ nextFd := s.nextFd + 1,
           fds := aset s.nextFd path s.fds,
           ports := aset path
             ({ port with openOpt := some opt, fds := port.fds ++ [s.nextFd] }) s.ports },
         [(.deferred, .okFd s.nextFd)])) := by
  refine ⟨?_, ?_, ?_⟩
  · intro hnone
    simp [mockOpen, hnone]
  · intro port o hport hfds hopt hlock
    have hlen : 0 < port.fds.length := List.length_pos.mpr hfds
    simp [mockOpen, hport, hlen, hopt, hlock]
  · intro port hport hfree
    rcases hfree with hnil | ⟨o, hopt, hlock⟩
    · simp [mockOpen, hport, hnil, openGo]
    · by_cases hlen : 0 < port.fds.length
      · simp [mockOpen, hport, hlen, hopt, hlock, openGo]
      · simp [mockOpen, hport, hlen, openGo]

/-- Witness for C1: the success branch at the one-port registry. -/
theorem mock_open_contract_witness :
    mockOpen mock1 devPath optLockT =
      .ok ({ nextFd := mock1.nextFd + 1,
             fds := aset mock1.nextFd devPath mock1.fds,
             ports := aset devPath
               ({ newPortEntry with
                  openOpt := some optLockT,
                  fds := newPortEntry.fds ++ [mock1.nextFd] }) mock1.ports },
           [(.deferred, .okFd mock1.nextFd)]) :=
  (mock_open_contract mock1 devPath optLockT).2.2 newPortEntry rfl (Or.inl rfl)

/-! ## C6 -/

/-- C6: mock `update` on any fd (valid or not) with options whose
`baudRate` field is absent raises synchronously (the `Except.error`
result models the `throw`, which preempts the state and every callback
invocation — no callback is produced). -/
theorem mock_update_missing_baud_throws (s : MockState) (fd : Nat) (opt : OpenOpt)
    (h : opt.baudRate = none) :
    mockUpdate s fd opt = .error .missingBaudRate := by
  simp [mockUpdate, truthyBaud, h]

/-- Witness for C6 at a never-opened fd. -/
theorem mock_update_missing_baud_throws_witness :
    mockUpdate emptyMock 99 { lock := true, baudRate := none } = .error .missingBaudRate :=
  mock_update_missing_baud_throws emptyMock 99 { lock := true, baudRate := none } rfl

/-! ## C2 -/

/-- C2 counterexample: `open` on an unregistered path invokes its
completion callback synchronously, inside the operation's own call
stack (the source returns `cb(new MissingPortError(path))` directly
instead of going through `callLater`), refuting the claim that no
binding operation ever invokes its callback synchronously. -/
theorem open_failure_callback_sync :
    cbsOfE (mockOpen emptyMock "COMBAD" optLockT)
      = [(.sync, .err (.missingPort (some "COMBAD")))] ∧
    allDeferred (cbsOfE (mockOpen emptyMock "COMBAD" optLockT)) = false :=
  ⟨rfl, rfl⟩

/-- C2 amended: for `close`, `update`, `write`, `flush`, `set`, `drain`
and `list` every callback invocation is deferred; for `open` the
success callback is deferred but the failure callbacks (missing port,
port locked) run synchronously. -/
theorem callbacks_deferred_except_open_failure
    (s : MockState) (h : BufHeap) (path : String) (fd buf : Nat)
    (opt : OpenOpt) (flags : SetFlags) :
    allDeferred (mockClose s fd).2 = true ∧
    allDeferred (cbsOfE (mockUpdate s fd opt)) = true ∧
    allDeferred (mockWrite s h fd buf).2.2 = true ∧
    allDeferred (mockFlush s fd).2 = true ∧
    allDeferred (mockSet s fd flags).2 = true ∧
    allDeferred (mockDrain s fd).2 = true ∧
    allDeferred (mockList s).2 = true ∧
    (cbsOfE (mockOpen s path opt)).all
      (fun tc => isDeferred tc.1 == !isErrArg tc.2) = true := by
  refine ⟨?_, ?_, ?_, ?_, ?_, ?_, ?_, ?_⟩
  · cases h1 : alookup fd s.fds with
    | none => simp [mockClose, h1, allDeferred, isDeferred]
    | some p =>
      cases h2 : alookup p s.ports with
      | none => simp [mockClose, h1, h2, allDeferred, isDeferred]
      | some port => simp [mockClose, h1, h2, allDeferred, isDeferred]
  · by_cases hb : truthyBaud opt.baudRate
    · by_cases hp : (getPortByFD s fd).isNone
      · simp [mockUpdate, hb, hp, cbsOfE, allDeferred, isDeferred]
      · simp [mockUpdate, hb, hp, cbsOfE, allDeferred, isDeferred]
    · simp [mockUpdate, hb, cbsOfE, allDeferred]
  · cases h1 : alookup fd s.fds with
    | none => simp [mockWrite, h1, allDeferred, isDeferred]
    | some p =>
      cases h2 : alookup p s.ports with
      | none => simp [mockWrite, h1, h2, allDeferred, isDeferred]
      | some port => simp [mockWrite, h1, h2, allDeferred, isDeferred]
  · by_cases hp : (getPortByFD s fd).isNone
    · simp [mockFlush, hp, allDeferred, isDeferred]
    · simp [mockFlush, hp, allDeferred, isDeferred]
  · by_cases hp : (getPortByFD s fd).isNone
    · simp [mockSet, hp, allDeferred, isDeferred]
    · simp [mockSet, hp, allDeferred, isDeferred]
  · by_cases hp : (getPortByFD s fd).isNone
    · simp [mockDrain, hp, allDeferred, isDeferred]
    · simp [mockDrain, hp, allDeferred, isDeferred]
  · simp [mockList, allDeferred, isDeferred]
  · cases h1 : alookup path s.ports with
    | none => simp [mockOpen, h1, cbsOfE, isDeferred, isErrArg]
    | some port =>
      by_cases hlen : 0 < port.fds.length
      · cases h2 : port.openOpt with
        | none => simp [mockOpen, h1, hlen, h2, cbsOfE]
        | some o =>
          by_cases hl : o.lock
          · simp [mockOpen, h1, hlen, h2, hl, cbsOfE, isDeferred, isErrArg]
          · simp [mockOpen, h1, hlen, h2, hl, openGo, cbsOfE, isDeferred, isErrArg]
      · simp [mockOpen, h1, hlen, openGo, cbsOfE, isDeferred, isErrArg]

/-! ## C5 -/

/-- The registry entry of `/dev/exists` after one open with the default
`lock: true` options. -/
def entryT : PortEntry :=
  { data := [], lastWrite := none, openOpt := some optLockT, fds := [0] }

/-- The registry entry of `/dev/exists` after one open with
`lock: false`. -/
def entryF : PortEntry :=
  { data := [], lastWrite := none, openOpt := some optLockF, fds := [0] }

/-- A handle currently open in the mock: present in the global fds map
and in its entry's fd list. -/
def validHandle (s : MockState) (fd : Nat) : Prop :=
  ∃ path port, alookup fd s.fds = some path ∧
    alookup path s.ports = some port ∧ fd ∈ port.fds

/-- C5 counterexample: `/dev/exists` holds one open handle (opened
with the default `lock: true`); a second open whose own options have
`lock: false` still fails with the port-locked error, because the lock
check reads the recorded options of the previous open, not the new
attempt's. -/
theorem second_open_lock_false_still_locked :
    alookup devPath mockOpened1.ports = some entryT ∧
    entryT.fds = [0] ∧
    mockOpen mockOpened1 devPath optLockF =
      .ok (mockOpened1, [(.sync, .err .portLocked)]) :=
  ⟨rfl, rfl, rfl⟩

/-- C5 amended: a second open of a registered path succeeds — whatever
the new attempt's own lock option — exactly when the entry's recorded
open options (those of the most recent successful open) have `lock`
false; when two handles are open, each is closable and closing one
leaves the other valid (still in the global fds map and in the entry's
fd list). -/
theorem shared_open_close_independence
    (s : MockState) (path : String) (port : PortEntry) (o : OpenOpt) :
    (∀ opt2 : OpenOpt, alookup path s.ports = some port → port.openOpt = some o →
      o.lock = false →
      mockOpen s path opt2 = .ok
        ({ nextFd := s.nextFd + 1, fds := aset s.nextFd path s.fds,
           ports := aset path
             ({ port with openOpt := some opt2, fds := port.fds ++ [s.nextFd] }) s.ports },
         [(.deferred, .okFd s.nextFd)])) ∧
    (∀ fd : Nat, validHandle s fd → (mockClose s fd).2 = [(.deferred, .okNone)]) ∧
    (∀ fd1 fd2 : Nat, fd1 ≠ fd2 → validHandle s fd2 →
      validHandle (mockClose s fd1).1 fd2) := by
  refine ⟨?_, ?_, ?_⟩
  · intro opt2 hport hopt hlock
    by_cases hlen : 0 < port.fds.length
    · simp [mockOpen, hport, hlen, hopt, hlock, openGo]
    · simp [mockOpen, hport, hlen, openGo]
  · intro fd hv
    obtain ⟨p, port2, h1, h2, _⟩ := hv
    simp [mockClose, h1, h2]
  · intro fd1 fd2 hne hv
    obtain ⟨p2, port2, h1, h2, hmem⟩ := hv
    cases ha : alookup fd1 s.fds with
    | none =>
      have hcs : (mockClose s fd1).1 = s := by simp [mockClose, ha]
      rw [hcs]
      exact ⟨p2, port2, h1, h2, hmem⟩
    | some p1 =>
      cases hb : alookup p1 s.ports with
      | none =>
        have hcs : (mockClose s fd1).1 = s := by simp [mockClose, ha, hb]
        rw [hcs]
        exact ⟨p2, port2, h1, h2, hmem⟩
      | some port1 =>
        have hcs : (mockClose s fd1).1 =
            { s with fds := aremove fd1 s.fds,
                     ports := aset p1
                       ({ port1 with fds := port1.fds.filter (fun i => i ≠ fd1) })
                       s.ports } := by
          simp [mockClose, ha, hb]
        rw [hcs]
        by_cases hpp : p2 = p1
        · have hpe : port2 = port1 := by
            rw [hpp] at h2
            rw [h2] at hb
            exact Option.some.inj hb
          refine ⟨p2, { port1 with fds := port1.fds.filter (fun i => i ≠ fd1) },
            ?_, ?_, ?_⟩
          · simp [alookup_aremove_ne _ hne.symm, h1]
          · simp [hpp, alookup_aset_self]
          · simp only [List.mem_filter]
            exact ⟨hpe ▸ hmem, by simp [hne.symm]⟩
        · refine ⟨p2, port2, ?_, ?_, hmem⟩
          · simp [alookup_aremove_ne _ hne.symm, h1]
          · simp [alookup_aset_ne _ _ hpp, h2]

/-- Witness for C5: first open with `lock: false`, a second open
succeeds with fd 1; with both handles open, closing fd 0 leaves fd 1
valid. -/
theorem shared_open_close_independence_witness :
    mockOpen mockOpenedF devPath optLockT = .ok
      ({ nextFd := mockOpenedF.nextFd + 1,
         fds := aset mockOpenedF.nextFd devPath mockOpenedF.fds,
         ports := aset devPath
           ({ entryF with
              openOpt := some optLockT,
              fds := entryF.fds ++ [mockOpenedF.nextFd] }) mockOpenedF.ports },
       [(.deferred, .okFd mockOpenedF.nextFd)]) ∧
    (mockClose mockOpenedFT 1).2 = [(.deferred, .okNone)] ∧
    validHandle (mockClose mockOpenedFT 0).1 1 := by
  have base := shared_open_close_independence mockOpenedF devPath entryF optLockF
  have baseFT := shared_open_close_independence mockOpenedFT devPath entryF optLockF
  refine ⟨base.1 optLockT rfl rfl rfl, ?_, ?_⟩
  · exact baseFT.2.1 1
      ⟨devPath, { data := [], lastWrite := none, openOpt := some optLockT, fds := [0, 1] },
        rfl, rfl, by decide⟩
  · exact baseFT.2.2 0 1 (by decide)
      ⟨devPath, { data := [], lastWrite := none, openOpt := some optLockT, fds := [0, 1] },
        rfl, rfl, by decide⟩

/-! ## C7 -/

/-- C7: mock `write` on a valid open handle allocates a fresh buffer
holding a copy of the caller's bytes, stores it in the entry's
last-write slot, and defers the success callback reporting the full
input length; later in-place mutation of the caller's buffer leaves
the recorded copy unchanged; for a handle absent from the fds map it
fails via the (deferred) callback. -/
theorem mock_write_contract
    (s : MockState) (h : BufHeap) (fd buf : Nat) (path : String)
    (port : PortEntry) (content : List Nat)
    (hfd : alookup fd s.fds = some path)
    (hport : alookup path s.ports = some port)
    (hbuf : alookup buf h.bufs = some content)
    (hlt : buf < h.next) :
    mockWrite s h fd buf =
      ({ s with ports := aset path ({ port with lastWrite := some h.next }) s.ports },
       { bufs := aset h.next content h.bufs, next := h.next + 1 },
       [(.deferred, .okBytes content.length)]) ∧
    (∀ c : List Nat,
      alookup h.next
        (writeBuf { bufs := aset h.next content h.bufs, next := h.next + 1 } buf c).bufs
        = some content) ∧
    (∀ fd' : Nat, alookup fd' s.fds = none →
      mockWrite s h fd' buf = (s, h, [(.deferred, .err (.missingPort none))])) := by
  have hnb : h.next ≠ buf := (Nat.ne_of_lt hlt).symm
  refine ⟨?_, ?_, ?_⟩
  · simp [mockWrite, hfd, hport, hbuf]
  · intro c
    simp only [writeBuf]
    rw [alookup_aset_ne _ _ hnb, alookup_aset_self]
  · intro fd' hn
    simp [mockWrite, hn]

/-- A one-buffer heap: buffer 0 holds the bytes 1, 2, 3. -/
def heap0 : BufHeap := { bufs := [(0, [1, 2, 3])], next := 1 }

/-- Witness for C7: writing buffer 0 through fd 0, then mutating the
caller's buffer to hold 9, leaves the recorded copy at 1, 2, 3. -/
theorem mock_write_contract_witness :
    mockWrite mockOpened1 heap0 0 0 =
      ({ mockOpened1 with
         ports := aset devPath ({ entryT with lastWrite := some heap0.next })
           mockOpened1.ports },
       { bufs := aset heap0.next [1, 2, 3] heap0.bufs, next := heap0.next + 1 },
       [(.deferred, .okBytes ([1, 2, 3] : List Nat).length)]) ∧
    alookup heap0.next
      (writeBuf { bufs := aset heap0.next [1, 2, 3] heap0.bufs, next := heap0.next + 1 }
        0 [9]).bufs = some [1, 2, 3] := by
  have base := mock_write_contract mockOpened1 heap0 0 0 devPath entryT [1, 2, 3]
    rfl rfl rfl (by decide)
  exact ⟨base.1, base.2.1 [9]⟩

/-! ## Controller helper lemmas -/

/-- Unfolding of `spClose` on a held fd: the stored fd is cleared, the
binding's close is invoked (logged and applied to the mock), and no
event or user callback fires synchronously (the completion is queued). -/
theorem spClose_parts (sys : Sys) (cb : Bool) (fd : Nat) (h : sys.sp.fd = some fd) :
    (spClose sys cb).sp = { sys.sp with fd := none } ∧
    (spClose sys cb).calls = sys.calls ++ [BindingCall.bindClose fd] ∧
    (spClose sys cb).mock = (mockClose sys.mock fd).1 ∧
    (spClose sys cb).events = sys.events ∧
    (spClose sys cb).cbLog = sys.cbLog := by
  cases h1 : alookup fd sys.mock.fds with
  | none => simp [spClose, h, mockClose, h1, deliver]
  | some p =>
    cases h2 : alookup p sys.mock.ports with
    | none => simp [spClose, h, mockClose, h1, h2, deliver]
    | some port => simp [spClose, h, mockClose, h1, h2, deliver]

/-! ## C3 -/

/-- C3 counterexample: for an unregistered path the binding reports the
open error (synchronously, via the mock), so the open attempt completes
— the queue is empty and the error event was emitted — yet the
`opening` guard is still set, and a second `open()` on the still-closed
controller is rejected with the port-opening error.  This refutes the
claim that the guard is cleared once the attempt completes with an
error. -/
theorem opening_guard_stuck_after_failed_open :
    spOpen noPortSys false = .ok sysAfterFailedOpen ∧
    sysAfterFailedOpen.events = [.errorEvt (.binding (.missingPort (some "COMBAD")))] ∧
    sysAfterFailedOpen.tasks = [] ∧
    sysAfterFailedOpen.sp.fd = none ∧
    sysAfterFailedOpen.sp.opening = true ∧
    spOpen sysAfterFailedOpen false =
      .ok { sysAfterFailedOpen with
            events := sysAfterFailedOpen.events ++ [.errorEvt .portOpening] } :=
  ⟨rfl, rfl, rfl, rfl, rfl, rfl⟩

/-- C3 amended: while `opening` is set a second `open()` on a
still-closed controller fails immediately through `_error` with the
port-opening error, touching neither the binding-call log nor the mock;
the completion closure clears the guard when the binding reports
success, but on a binding error it leaves the guard unchanged (so a
failed attempt leaves it set for good). -/
theorem opening_guard_behavior (sys : Sys) (cb : Bool) :
    (sys.sp.opening = true → sys.sp.fd = none →
      spOpen sys cb = .ok (sysError sys cb .portOpening) ∧
      (sysError sys cb .portOpening).calls = sys.calls ∧
      (sysError sys cb .portOpening).mock = sys.mock) ∧
    (∀ fd : Nat, (spOpenCb sys cb (.okFd fd)).sp.opening = false) ∧
    (∀ e : MockErr, (spOpenCb sys cb (.err e)).sp.opening = sys.sp.opening) := by
  refine ⟨?_, ?_, ?_⟩
  · intro hop hfd
    refine ⟨?_, ?_, ?_⟩
    · simp [spOpen, isOpen, hfd, hop]
    · cases cb <;> simp [sysError]
    · cases cb <;> simp [sysError]
  · intro fd
    cases cb <;> simp [spOpenCb]
  · intro e
    cases cb <;> simp [spOpenCb, sysError]

/-- Witness for C3 (amended) at the stuck controller. -/
theorem opening_guard_behavior_witness :
    spOpen sysAfterFailedOpen false =
      .ok (sysError sysAfterFailedOpen false .portOpening) ∧
    (spOpenCb sysAfterFailedOpen false (.okFd 0)).sp.opening = false :=
  ⟨((opening_guard_behavior sysAfterFailedOpen false).1 rfl rfl).1,
   (opening_guard_behavior sysAfterFailedOpen false).2.1 0⟩

/-! ## C4 -/

/-- C4 counterexample: on an open controller `_disconnected` calls
`close()`, which does invoke the binding's close — the call is logged
and the mock actually drops fd 0 from its global map — refuting the
claim that the close transition happens without the binding's close
being re-invoked. -/
theorem disconnect_invokes_binding_close :
    sysOpened.sp.fd = some 0 ∧
    (spDisconnected sysOpened (.missingPort none)).calls =
      sysOpened.calls ++ [BindingCall.bindClose 0] ∧
    alookup 0 (spDisconnected sysOpened (.missingPort none)).mock.fds = none :=
  ⟨rfl, rfl, rfl⟩

/-- C4 amended: with no held fd `_disconnected` does nothing; with a
held fd it emits the disconnect event carrying the error and then
performs a full normal `close()` — which clears the fd and does invoke
the binding's close on the handle. -/
theorem disconnect_behavior (sys : Sys) (e : MockErr) :
    (sys.sp.fd = none → spDisconnected sys e = sys) ∧
    (∀ fd : Nat, sys.sp.fd = some fd →
      spDisconnected sys e =
        spClose { sys with events := sys.events ++ [SPEvent.disconnectEvt e] } false ∧
      (spDisconnected sys e).calls = sys.calls ++ [BindingCall.bindClose fd] ∧
      (spDisconnected sys e).events = sys.events ++ [SPEvent.disconnectEvt e] ∧
      (spDisconnected sys e).sp.fd = none) := by
  refine ⟨?_, ?_⟩
  · intro h
    simp [spDisconnected, h]
  · intro fd h
    have hd : spDisconnected sys e =
        spClose { sys with events := sys.events ++ [SPEvent.disconnectEvt e] } false := by
      simp [spDisconnected, h]
    have hparts := spClose_parts
      { sys with events := sys.events ++ [SPEvent.disconnectEvt e] } false fd (by simp [h])
    refine ⟨hd, ?_, ?_, ?_⟩
    · rw [hd]
      exact hparts.2.1
    · rw [hd]
      exact hparts.2.2.2.1
    · rw [hd, hparts.1]

/-- Witness for C4 (amended) at the opened controller. -/
theorem disconnect_behavior_witness :
    spDisconnected sysOpened (.fdClosed 7) =
      spClose { sysOpened with
                events := sysOpened.events ++ [SPEvent.disconnectEvt (.fdClosed 7)] }
        false ∧
    (spDisconnected sysOpened (.fdClosed 7)).calls =
      sysOpened.calls ++ [BindingCall.bindClose 0] := by
  have base := (disconnect_behavior sysOpened (.fdClosed 7)).2 0 rfl
  exact ⟨base.1, base.2.1⟩

/-! ## C8 -/

/-- C8 (code bug, evaluated at the failing input): `_read(5)` on a
not-yet-open controller registers the once-open retry but — the source
lacks a `return` — still falls through to
`this.portReader.requestBytes(bytes)`, and `portReader` is never
assigned (its creation in `open` is commented out), so the call throws
a TypeError; no data request ever reaches the binding layer. -/
theorem read_before_open_throws :
    isOpen okPortSys.sp = false ∧
    (spRead okPortSys 5).1.sp.onceOpen = [5] ∧
    (spRead okPortSys 5).2 = some JsThrow.typeError ∧
    (spRead okPortSys 5).1.calls = [] :=
  ⟨rfl, rfl, rfl, rfl⟩

/-! ## C9 -/

/-- C9: `close()` on an open controller clears the stored fd eagerly —
`isOpen` is false as soon as the call returns, before the queued
binding completion runs — and when the binding's close later reports an
error, the completion closure only routes it through the
callback-or-error-event convention, leaving the fd cleared (no rollback
to the open state). -/
theorem close_clears_fd_eagerly (sys : Sys) (cb : Bool) (fd : Nat)
    (h : sys.sp.fd = some fd) :
    isOpen (spClose sys cb).sp = false ∧
    (∀ sys' : Sys, ∀ cb' : Bool, ∀ e : MockErr, sys'.sp.fd = none →
      isOpen (spCloseCb sys' cb' (.err e)).sp = false ∧
      spCloseCb sys' cb' (.err e) = sysError sys' cb' (.binding e)) := by
  refine ⟨?_, ?_⟩
  · have hp := (spClose_parts sys cb fd h).1
    rw [isOpen, hp]
    simp
  · intro sys' cb' e h'
    refine ⟨?_, rfl⟩
    cases cb' <;> simp [spCloseCb, sysError, isOpen, h']

/-- Witness for C9: closing the opened controller, then running the
completion closure with an error, keeps the controller closed. -/
theorem close_clears_fd_eagerly_witness :
    isOpen (spClose sysOpened true).sp = false ∧
    isOpen (spCloseCb (spClose sysOpened true) false (.err (.fdClosed 0))).sp = false := by
  have base := close_clears_fd_eagerly sysOpened true 0 rfl
  exact ⟨base.1, (base.2 (spClose sysOpened true) false (.fdClosed 0) rfl).1⟩

/-! ## C10 -/

/-- C10 counterexample: on the open controller, `update` with a caller
option of `baudRate: 0` merges to the numeric 0, which the mock's
truthiness check treats as missing — the synchronous missing-baud-rate
throw is reached through the controller, refuting the claim that it is
unreachable. -/
theorem update_zero_baud_reaches_throw :
    sysOpened.sp.fd = some 0 ∧
    spUpdate sysOpened (some 0) true = .error .missingBaudRate :=
  ⟨rfl, rfl⟩

/-- C10 amended: controller `update` merges the caller's options over
the full defaults, so the binding's update receives options whose
`baudRate` is the numeric merged value (the default 9600 when the
caller supplies none) and the stored `options.baudRate` is overwritten
with that merged value before the binding call; the mock's synchronous
missing-baud-rate throw is unreachable exactly when the merged value is
nonzero — a caller-supplied 0 still reaches it. -/
theorem update_merges_defaults (sys : Sys) (b : Option Nat) (cb : Bool) (fd : Nat)
    (hfd : sys.sp.fd = some fd) :
    (b.getD 9600 ≠ 0 →
      spUpdate sys b cb = .ok
        { sys with
          sp := { sys.sp with
                  options := { sys.sp.options with baudRate := b.getD 9600 } },
          calls := sys.calls ++ [BindingCall.bindUpdate fd
            { lock := sys.sp.options.lock, baudRate := some (b.getD 9600) }],
          tasks := sys.tasks ++ [STask.updateCb cb
            (if (getPortByFD sys.mock fd).isNone then CbArg.err (.missingPort none)
             else CbArg.okNone)] }) ∧
    (b.getD 9600 = 0 → spUpdate sys b cb = .error .missingBaudRate) := by
  refine ⟨?_, ?_⟩
  · intro hnz
    by_cases hp : (getPortByFD sys.mock fd).isNone
    · simp [spUpdate, hfd, defaultSettings, Settings.toOpenOpt, mockUpdate,
        truthyBaud, hnz, hp, deliver]
    · simp [spUpdate, hfd, defaultSettings, Settings.toOpenOpt, mockUpdate,
        truthyBaud, hnz, hp, deliver]
  · intro hz
    simp [spUpdate, hfd, defaultSettings, Settings.toOpenOpt, mockUpdate,
      truthyBaud, hz]

/-- Witness for C10 (amended): `update` with no caller baud rate on the
opened controller hands the default 9600 to the binding. -/
theorem update_merges_defaults_witness :
    spUpdate sysOpened none true = .ok
      { sysOpened with
        sp := { sysOpened.sp with
                options := { sysOpened.sp.options with
                             baudRate := (none : Option Nat).getD 9600 } },
        calls := sysOpened.calls ++ [BindingCall.bindUpdate 0
          { lock := sysOpened.sp.options.lock,
            baudRate := some ((none : Option Nat).getD 9600) }],
        tasks := sysOpened.tasks ++ [STask.updateCb true
          (if (getPortByFD sysOpened.mock 0).isNone then CbArg.err (.missingPort none)
           else CbArg.okNone)] } :=
  (update_merges_defaults sysOpened none true 0 rfl).1 (by decide)

end SerialCore
